import Mathlib

/-!
Verification of `casperlabs_local_net/docker_config.py`: the `DockerConfig`
dataclass, its `__post_init__` environment handling, and the derivation
methods `tls_certificate_path`, `tls_key_path` and `node_command_options`.

Python dicts are modelled as insertion-ordered association lists with
key-replacing insertion, matching `options[k] = v` semantics.
-/

/-- A Python `dict` with string keys and string values: an insertion-ordered
association list whose keys are unique (every construction below only inserts
via `Dict.insert`, which replaces an existing key in place). -/
abbrev Dict := List (String × String)

namespace Dict

/-- Python `k in d`. -/
def containsKey (d : Dict) (k : String) : Bool :=
  match d with
  | [] => false
  | p :: rest => if p.1 = k then true else containsKey rest k

/-- Python `d[k] = v`: replace the value at `k` in place if `k` is already
present, otherwise append the new binding at the end. -/
def insert (d : Dict) (k v : String) : Dict :=
  if d.containsKey k then
    d.map (fun p => if p.1 = k then (k, v) else p)
  else
    d ++ [(k, v)]

/-- Python `d.get(k)`: the value bound to the first occurrence of `k`. -/
def lookup (d : Dict) (k : String) : Option String :=
  match d with
  | [] => none
  | p :: rest => if p.1 = k then some p.2 else lookup rest k

end Dict

/-- Opaque handle to the container runtime; `docker.DockerClient` carries no
data relevant to this module. -/
structure DockerClient where

/-- Opaque reference to `casperlabs_accounts.Account`; carries no data
relevant to this module. -/
structure Account where

/-- Modelled from the spec: `BOOTSTRAP_PATH` is imported from
`casperlabs_local_net.common`, which is not part of the sources; the spec
describes it as a fixed base directory constant for the in-container TLS
material. Its exact value does not affect any property proved below. -/
def BOOTSTRAP_PATH : String := "/root/.casperlabs/bootstrap"

/-- The fields of the `DockerConfig` dataclass (lines 19-42 of the source),
with the same names and the same optionality. -/
structure DockerConfig where
  docker_client : DockerClient
  node_private_key : String
  node_public_key : Option String
  node_env : Option Dict
  network : Option Unit
  number : Int
  rand_str : Option String
  command_timeout : Int
  mem_limit : String
  is_bootstrap : Bool
  is_validator : Bool
  is_signed_deploy : Bool
  bootstrap_address : Option String
  initial_motes : Int
  socket_volume : Option String
  node_account : Option Account
  grpc_encryption : Bool
  is_read_only : Bool

/-- A `DockerConfig` built with only the two required dataclass arguments,
every other field at its dataclass default (lines 27-42 of the source). -/
def defaultConfig (docker_client : DockerClient) (node_private_key : String) :
    DockerConfig :=
  { docker_client := docker_client
    node_private_key := node_private_key
    node_public_key := none
    node_env := none
    network := none
    number := 0
    rand_str := none
    command_timeout := 180
    mem_limit := "4G"
    is_bootstrap := false
    is_validator := true
    is_signed_deploy := true
    bootstrap_address := none
    initial_motes := 100 * 10 ^ 9
    socket_volume := none
    node_account := none
    grpc_encryption := false
    is_read_only := false }

namespace DockerConfig

/-- `tls_certificate_path` (lines 53-54). -/
def tls_certificate_path (cfg : DockerConfig) : String :=
  BOOTSTRAP_PATH ++ "/node-" ++ toString cfg.number ++ ".certificate.pem"

/-- `tls_key_path` (lines 56-57). -/
def tls_key_path (cfg : DockerConfig) : String :=
  BOOTSTRAP_PATH ++ "/node-" ++ toString cfg.number ++ ".key.pem"

/-- `node_command_options` (lines 68-87).  The trailing conditional inserts
mirror the Python `if` statements; `if self.bootstrap_address:` and
`if self.node_public_key:` test Python truthiness, which for an optional
string means present and non-empty. -/
def node_command_options (cfg : DockerConfig) (server_host : String) : Dict :=
  let options : Dict :=
    [("--server-default-timeout", "10second"),
     ("--server-host", server_host),
     ("--grpc-socket", "/root/.casperlabs/sockets/.casper-node.sock"),
     ("--metrics-prometheus", ""),
     ("--tls-certificate", cfg.tls_certificate_path),
     ("--tls-key", cfg.tls_key_path),
     ("--tls-api-certificate", cfg.tls_certificate_path),
     ("--tls-api-key", cfg.tls_key_path)]
  let options :=
    if cfg.is_read_only then options
    else options.insert "--casper-validator-private-key" cfg.node_private_key
  let options :=
    if cfg.grpc_encryption then options.insert "--grpc-use-tls" "" else options
  let options :=
    match cfg.bootstrap_address with
    | none => options
    | some s => if s == "" then options else options.insert "--server-bootstrap" s
  let options :=
    match cfg.node_public_key with
    | none => options
    | some s =>
        if s == "" then options
        else options.insert "--casper-validator-public-key" s
  options

end DockerConfig

/-- The module-level dict `DEFAULT_NODE_ENV` (lines 11-16) as first created
at import time.  `clLogLevel` is the ambient `CL_LOG_LEVEL`
process-environment value read by `os.environ.get("CL_LOG_LEVEL", "INFO")`. -/
def DEFAULT_NODE_ENV (clLogLevel : Option String) : Dict :=
  [("RUST_BACKTRACE", "full"),
   ("CL_LOG_LEVEL", clLogLevel.getD "INFO"),
   ("CL_SERVER_NO_UPNP", "true"),
   ("CL_VERSION", "test")]

/-- Mutable module state for the environment handling: the current contents of
the module-level `DEFAULT_NODE_ENV` dict object.  Python dicts are mutable
heap objects, so `self.node_env = DEFAULT_NODE_ENV` aliases this object rather
than copying it; the state makes that aliasing explicit. -/
structure ModuleState where
  defaultNodeEnvDict : Dict

/-- The module state right after import: `DEFAULT_NODE_ENV` holds its literal
contents. -/
def initState (clLogLevel : Option String) : ModuleState :=
  { defaultNodeEnvDict := DEFAULT_NODE_ENV clLogLevel }

/-- What an instance's `node_env` field refers to after `__post_init__`:
either the shared module-level `DEFAULT_NODE_ENV` object (when the caller
passed `node_env=None`) or the caller-supplied dict. -/
inductive EnvRef where
  | sharedDefault : EnvRef
  | owned : Dict → EnvRef
deriving DecidableEq

/-- The environment-handling part of `DockerConfig.__post_init__`
(lines 47-51): default `node_env` to the module-level `DEFAULT_NODE_ENV`
object when the caller supplied none, then, if `_JAVA_OPTIONS` is present in
the ambient process environment, write it into whichever dict `node_env` now
refers to.  (The `rand_str` defaulting on lines 45-46 touches no dict and is
independent of the environment.)  Returns the instance's environment
reference and the module state after the call. -/
def postInitEnv (supplied : Option Dict) (javaOptions : Option String)
    (st : ModuleState) : EnvRef × ModuleState :=
  let ref := match supplied with
    | none => EnvRef.sharedDefault
    | some d => EnvRef.owned d
  match javaOptions with
  | none => (ref, st)
  | some v =>
      match ref with
      | EnvRef.sharedDefault =>
          (EnvRef.sharedDefault,
           { defaultNodeEnvDict := st.defaultNodeEnvDict.insert "_JAVA_OPTIONS" v })
      | EnvRef.owned d => (EnvRef.owned (d.insert "_JAVA_OPTIONS" v), st)

/-- Dereference an instance's environment in a given module state: the dict
the orchestration layer actually reads as `config.node_env`. -/
def readEnv (r : EnvRef) (st : ModuleState) : Dict :=
  match r with
  | EnvRef.sharedDefault => st.defaultNodeEnvDict
  | EnvRef.owned d => d

/-- Module states reachable from import time by any sequence of
`DockerConfig` constructions.  The ambient process environment
(`CL_LOG_LEVEL`, `_JAVA_OPTIONS`) is fixed for the lifetime of the process,
so every construction sees the same `javaOptions`. -/
inductive Reachable (clLogLevel javaOptions : Option String) : ModuleState → Prop where
  | init : Reachable clLogLevel javaOptions (initState clLogLevel)
  | step : ∀ (supplied : Option Dict) (st : ModuleState),
      Reachable clLogLevel javaOptions st →
      Reachable clLogLevel javaOptions (postInitEnv supplied javaOptions st).2

/-- A configuration error raised by the dataclass-generated constructor: in
Python, omitting a required argument (`docker_client` or `node_private_key`)
raises `TypeError` before any instance exists. -/
inductive ConstructError where
  | missingRequiredArgument : String → ConstructError
deriving DecidableEq

/-- The dataclass-generated constructor call (lines 19-42): an omitted
argument is `none` for the two required parameters and is expressed by
passing the dataclass default for the optional ones.  The dataclass performs
no validation of any field value; it only fails when a required argument is
missing. -/
def mkDockerConfig (docker_client : Option DockerClient)
    (node_private_key : Option String) (node_public_key : Option String)
    (node_env : Option Dict) (number : Int) (is_bootstrap : Bool)
    (is_validator : Bool) (bootstrap_address : Option String)
    (grpc_encryption : Bool) (is_read_only : Bool) :
    Except ConstructError DockerConfig :=
  match docker_client with
  | none => Except.error (ConstructError.missingRequiredArgument "docker_client")
  | some c =>
      match node_private_key with
      | none => Except.error (ConstructError.missingRequiredArgument "node_private_key")
      | some k =>
          Except.ok
            { defaultConfig c k with
              node_public_key := node_public_key
              node_env := node_env
              number := number
              is_bootstrap := is_bootstrap
              is_validator := is_validator
              bootstrap_address := bootstrap_address
              grpc_encryption := grpc_encryption
              is_read_only := is_read_only }

/-- Whether `needle` occurs as a contiguous character run inside `hay`
(Python `needle in hay` on strings). -/
def listContainsSub (needle : List Char) : List Char → Bool
  | [] => needle.isEmpty
  | c :: rest => needle.isPrefixOf (c :: rest) || listContainsSub needle rest

/-- String-level substring test. -/
def strContainsSub (hay needle : String) : Bool :=
  listContainsSub needle.data hay.data


namespace Dict

theorem lookup_append_new (d : Dict) (k v k' : String)
    (h : d.containsKey k = false) :
    lookup (d ++ [(k, v)]) k' = if k' = k then some v else lookup d k' := by
  induction d with
  | nil =>
      by_cases hk : k' = k
      · simp [lookup, hk]
      · simp [lookup, hk, Ne.symm hk]
  | cons p rest ih =>
      simp only [containsKey] at h
      by_cases hp : p.1 = k
      · simp [hp] at h
      · simp only [if_neg hp] at h
        by_cases hpk : p.1 = k'
        · have hkk : ¬ (k' = k) := fun hkk => hp (hpk.trans hkk)
          simp [lookup, hpk, hkk]
        · simp [lookup, hpk, ih h]

theorem lookup_map_ne (d : Dict) (k v k' : String) (h : k' ≠ k) :
    lookup (d.map (fun p => if p.1 = k then (k, v) else p)) k' = lookup d k' := by
  induction d with
  | nil => simp [lookup]
  | cons p rest ih =>
      by_cases hp : p.1 = k
      · have hks : ¬ (k = k') := fun hkk => h (Eq.symm hkk)
        simp [lookup, hp, hks, ih]
      · simp [lookup, hp, ih]

theorem lookup_map_self (d : Dict) (k v : String)
    (h : d.containsKey k = true) :
    lookup (d.map (fun p => if p.1 = k then (k, v) else p)) k = some v := by
  induction d with
  | nil => simp [containsKey] at h
  | cons p rest ih =>
      by_cases hp : p.1 = k
      · simp [lookup, hp]
      · simp only [containsKey, if_neg hp] at h
        simp [lookup, hp, ih h]

theorem lookup_insert (d : Dict) (k v k' : String) :
    lookup (d.insert k v) k' = if k' = k then some v else lookup d k' := by
  unfold insert
  by_cases h : d.containsKey k
  · rw [if_pos h]
    by_cases hk : k' = k
    · subst hk
      simp [lookup_map_self d k' v h]
    · simp [lookup_map_ne d k v k' hk, hk]
  · simp only [Bool.not_eq_true] at h
    simp [h, lookup_append_new d k v k' h]

theorem containsKey_eq_isSome_lookup (d : Dict) (k : String) :
    d.containsKey k = (d.lookup k).isSome := by
  induction d with
  | nil => simp [containsKey, lookup]
  | cons p rest ih =>
      by_cases hp : p.1 = k
      · simp [containsKey, lookup, hp]
      · simp [containsKey, lookup, hp, ih]

end Dict

/-! Characterizations of the four conditional flags of `node_command_options`,
shared by several of the claim theorems below. -/

/-- The validator private-key flag is present exactly when the node is not
read-only, bound to `node_private_key`. -/
theorem options_lookup_private_key (cfg : DockerConfig) (host : String) :
    Dict.lookup (cfg.node_command_options host) "--casper-validator-private-key" =
      if cfg.is_read_only then none else some cfg.node_private_key := by
  rcases cfg with ⟨dc, pk, pub, env, nw, num, rs, ct, ml, ib, iv, isd, ba, im, sv, na, ge, ro⟩
  simp only [DockerConfig.node_command_options]
  cases ro <;> cases ge <;> rcases ba with _ | s1 <;> rcases pub with _ | s2 <;>
    simp [apply_ite (fun d => Dict.lookup d "--casper-validator-private-key"),
      Dict.lookup_insert, Dict.lookup]

/-- The gRPC-TLS marker flag is present with an empty value exactly when
`grpc_encryption` is set. -/
theorem options_lookup_grpc_tls (cfg : DockerConfig) (host : String) :
    Dict.lookup (cfg.node_command_options host) "--grpc-use-tls" =
      if cfg.grpc_encryption then some "" else none := by
  rcases cfg with ⟨dc, pk, pub, env, nw, num, rs, ct, ml, ib, iv, isd, ba, im, sv, na, ge, ro⟩
  simp only [DockerConfig.node_command_options]
  cases ro <;> cases ge <;> rcases ba with _ | s1 <;> rcases pub with _ | s2 <;>
    simp [apply_ite (fun d => Dict.lookup d "--grpc-use-tls"),
      Dict.lookup_insert, Dict.lookup]

/-- The bootstrap flag is present exactly when `bootstrap_address` is a
truthy (present and non-empty) string, bound to that string. -/
theorem options_lookup_bootstrap (cfg : DockerConfig) (host : String) :
    Dict.lookup (cfg.node_command_options host) "--server-bootstrap" =
      (match cfg.bootstrap_address with
        | none => none
        | some s => if s = "" then none else some s) := by
  rcases cfg with ⟨dc, pk, pub, env, nw, num, rs, ct, ml, ib, iv, isd, ba, im, sv, na, ge, ro⟩
  simp only [DockerConfig.node_command_options]
  cases ro <;> cases ge <;> rcases ba with _ | s1 <;> rcases pub with _ | s2 <;>
    simp [apply_ite (fun d => Dict.lookup d "--server-bootstrap"),
      Dict.lookup_insert, Dict.lookup]

/-- The validator public-key flag is present exactly when `node_public_key`
is a truthy (present and non-empty) string, bound to that string. -/
theorem options_lookup_public_key (cfg : DockerConfig) (host : String) :
    Dict.lookup (cfg.node_command_options host) "--casper-validator-public-key" =
      (match cfg.node_public_key with
        | none => none
        | some s => if s = "" then none else some s) := by
  rcases cfg with ⟨dc, pk, pub, env, nw, num, rs, ct, ml, ib, iv, isd, ba, im, sv, na, ge, ro⟩
  simp only [DockerConfig.node_command_options]
  cases ro <;> cases ge <;> rcases ba with _ | s1 <;> rcases pub with _ | s2 <;>
    simp [apply_ite (fun d => Dict.lookup d "--casper-validator-public-key"),
      Dict.lookup_insert, Dict.lookup]

/-! Helper lemmas about the environment state machine. -/

/-- A construction never changes the binding of any key other than
`_JAVA_OPTIONS` in the module-level default dict. -/
theorem lookup_postInitEnv_state_ne (supplied : Option Dict) (amb : Option String)
    (st : ModuleState) (k : String) (hk : ¬ (k = "_JAVA_OPTIONS")) :
    Dict.lookup (postInitEnv supplied amb st).2.defaultNodeEnvDict k =
      Dict.lookup st.defaultNodeEnvDict k := by
  rcases supplied <;> rcases amb <;> simp [postInitEnv, Dict.lookup_insert, hk]

/-- In every reachable module state, keys other than `_JAVA_OPTIONS` are
bound in the shared default dict exactly as at import time. -/
theorem reachable_lookup_ne (cl amb : Option String) (st : ModuleState)
    (h : Reachable cl amb st) (k : String) (hk : ¬ (k = "_JAVA_OPTIONS")) :
    Dict.lookup st.defaultNodeEnvDict k = Dict.lookup (DEFAULT_NODE_ENV cl) k := by
  induction h with
  | init => rfl
  | step supplied st1 hst ih => rw [lookup_postInitEnv_state_ne supplied amb st1 k hk, ih]

/-- When the ambient `_JAVA_OPTIONS` override is absent for the whole process,
no reachable module state binds `_JAVA_OPTIONS` in the shared default dict. -/
theorem reachable_no_java (cl : Option String) (st : ModuleState)
    (h : Reachable cl none st) :
    Dict.lookup st.defaultNodeEnvDict "_JAVA_OPTIONS" = none := by
  induction h with
  | init => simp [initState, DEFAULT_NODE_ENV, Dict.lookup]
  | step supplied st1 hst ih => simpa [postInitEnv] using ih

/-! The claim theorems. -/

/-- Claim C1, counterexample to the stated entry count: for a
default-constructed node the mapping returned by `node_command_options` does
not have 8 entries (it has 9: the claim's own list names nine flags). -/
theorem C1_counterexample :
    ¬ ((DockerConfig.node_command_options (defaultConfig DockerClient.mk "PK")
        "10.0.0.1").length = 8) := by decide

/-- Claim C1 (amended): for a default-constructed node (non-bootstrap,
non-read-only, non-encrypted, no public key, no bootstrap address),
`node_command_options host` is exactly the mapping with 9 entries - the
request timeout, the server host, the gRPC socket path, the metrics marker,
both certificate flags, both key flags, and the validator private-key flag -
with no gRPC-TLS-encryption flag, no bootstrap-address flag, and no
public-key flag. -/
theorem C1_default_options (pk host : String) :
    DockerConfig.node_command_options (defaultConfig DockerClient.mk pk) host =
      [("--server-default-timeout", "10second"),
       ("--server-host", host),
       ("--grpc-socket", "/root/.casperlabs/sockets/.casper-node.sock"),
       ("--metrics-prometheus", ""),
       ("--tls-certificate", "/root/.casperlabs/bootstrap/node-0.certificate.pem"),
       ("--tls-key", "/root/.casperlabs/bootstrap/node-0.key.pem"),
       ("--tls-api-certificate", "/root/.casperlabs/bootstrap/node-0.certificate.pem"),
       ("--tls-api-key", "/root/.casperlabs/bootstrap/node-0.key.pem"),
       ("--casper-validator-private-key", pk)] ∧
    (DockerConfig.node_command_options (defaultConfig DockerClient.mk pk) host).length = 9 ∧
    Dict.lookup (DockerConfig.node_command_options (defaultConfig DockerClient.mk pk) host)
      "--grpc-use-tls" = none ∧
    Dict.lookup (DockerConfig.node_command_options (defaultConfig DockerClient.mk pk) host)
      "--server-bootstrap" = none ∧
    Dict.lookup (DockerConfig.node_command_options (defaultConfig DockerClient.mk pk) host)
      "--casper-validator-public-key" = none :=
  ⟨rfl, rfl, rfl, rfl, rfl⟩

/-- Claim C2, counterexample to the stated entry count: for the scenario
instance (nodeNumber 3, not read-only, gRPC encryption on, bootstrap address
and public key set) the mapping does not have 11 entries (it has 12, since
the non-read-only node also receives the validator private-key flag). -/
theorem C2_counterexample :
    ¬ ((DockerConfig.node_command_options
        { defaultConfig DockerClient.mk "PRIVKEY" with
          number := 3
          grpc_encryption := true
          bootstrap_address := some "10.0.0.5:40400"
          node_public_key := some "PUBKEY" } "10.0.0.9").length = 11) := by decide

/-- Claim C2 (amended): for an instance with nodeNumber 3, isReadOnly false,
grpcEncryption true, bootstrapAddress "10.0.0.5:40400" and publicKey
"PUBKEY", `node_command_options "10.0.0.9"` equals the base 8 entries plus
the validator private-key flag, the encryption marker, the bootstrap-address
flag, and the public-key flag - 12 entries in total - with the server-host
flag mapped to "10.0.0.9" and both TLS certificate paths containing
"node-3". -/
theorem C2_end_to_end (pk : String) :
    DockerConfig.node_command_options
        { defaultConfig DockerClient.mk pk with
          number := 3
          grpc_encryption := true
          bootstrap_address := some "10.0.0.5:40400"
          node_public_key := some "PUBKEY" } "10.0.0.9" =
      [("--server-default-timeout", "10second"),
       ("--server-host", "10.0.0.9"),
       ("--grpc-socket", "/root/.casperlabs/sockets/.casper-node.sock"),
       ("--metrics-prometheus", ""),
       ("--tls-certificate", "/root/.casperlabs/bootstrap/node-3.certificate.pem"),
       ("--tls-key", "/root/.casperlabs/bootstrap/node-3.key.pem"),
       ("--tls-api-certificate", "/root/.casperlabs/bootstrap/node-3.certificate.pem"),
       ("--tls-api-key", "/root/.casperlabs/bootstrap/node-3.key.pem"),
       ("--casper-validator-private-key", pk),
       ("--grpc-use-tls", ""),
       ("--server-bootstrap", "10.0.0.5:40400"),
       ("--casper-validator-public-key", "PUBKEY")] ∧
    Dict.lookup (DockerConfig.node_command_options
        { defaultConfig DockerClient.mk pk with
          number := 3
          grpc_encryption := true
          bootstrap_address := some "10.0.0.5:40400"
          node_public_key := some "PUBKEY" } "10.0.0.9") "--server-host" = some "10.0.0.9" ∧
    strContainsSub
      (Option.getD (Dict.lookup (DockerConfig.node_command_options
        { defaultConfig DockerClient.mk pk with
          number := 3
          grpc_encryption := true
          bootstrap_address := some "10.0.0.5:40400"
          node_public_key := some "PUBKEY" } "10.0.0.9") "--tls-certificate") "")
      "node-3" = true ∧
    strContainsSub
      (Option.getD (Dict.lookup (DockerConfig.node_command_options
        { defaultConfig DockerClient.mk pk with
          number := 3
          grpc_encryption := true
          bootstrap_address := some "10.0.0.5:40400"
          node_public_key := some "PUBKEY" } "10.0.0.9") "--tls-api-certificate") "")
      "node-3" = true :=
  ⟨rfl, rfl, rfl, rfl⟩

/-- Claim C3: for every instance and host, the validator private-key flag is
absent from `node_command_options` when the instance is read-only, and is
present bound to the instance's private key when it is not, regardless of
every other field. -/
theorem C3_private_key_flag (cfg : DockerConfig) (host : String) :
    Dict.lookup (cfg.node_command_options host) "--casper-validator-private-key" =
      if cfg.is_read_only then none else some cfg.node_private_key :=
  options_lookup_private_key cfg host

/-- Claim C4, counterexample: an instance whose `bootstrap_address` is the
empty string has the field set (`isSome`), yet `node_command_options` does
not contain the bootstrap flag, because the source tests Python truthiness
rather than presence. -/
theorem C4_counterexample :
    ¬ (Dict.containsKey
        (DockerConfig.node_command_options
          { defaultConfig DockerClient.mk "PK" with bootstrap_address := some "" }
          "10.0.0.1") "--server-bootstrap" = true ↔
      (DockerConfig.bootstrap_address
        { defaultConfig DockerClient.mk "PK" with bootstrap_address := some "" }).isSome
        = true) := by decide

/-- Claim C4 (amended): for every instance and host, `node_command_options`
contains the gRPC-TLS marker flag with an empty value iff `grpc_encryption`
is true; contains the bootstrap-peer flag mapped to exactly the
`bootstrap_address` value iff `bootstrap_address` is set to a non-empty
string; and contains the validator public-key flag mapped to the
`node_public_key` value iff `node_public_key` is set to a non-empty
string. -/
theorem C4_flag_conditions (cfg : DockerConfig) (host : String) :
    (Dict.lookup (cfg.node_command_options host) "--grpc-use-tls" = some "" ↔
      cfg.grpc_encryption = true) ∧
    (∀ s, Dict.lookup (cfg.node_command_options host) "--server-bootstrap" = some s ↔
      (cfg.bootstrap_address = some s ∧ s ≠ "")) ∧
    (∀ s, Dict.lookup (cfg.node_command_options host) "--casper-validator-public-key"
        = some s ↔ (cfg.node_public_key = some s ∧ s ≠ "")) := by
  refine ⟨?_, ?_, ?_⟩
  · rw [options_lookup_grpc_tls]
    cases hg : cfg.grpc_encryption <;> simp
  · intro s
    rw [options_lookup_bootstrap]
    rcases hb : cfg.bootstrap_address with _ | s1
    · simp
    · by_cases h1 : s1 = ""
      · subst h1
        constructor
        · intro hcon
          simp at hcon
        · rintro ⟨hs1, hne⟩
          cases hs1
          exact absurd rfl hne
      · constructor
        · intro hs
          have hs1 : s1 = s := by simpa [h1] using hs
          subst hs1
          exact ⟨rfl, h1⟩
        · rintro ⟨hs1, hne⟩
          cases hs1
          simp [h1]
  · intro s
    rw [options_lookup_public_key]
    rcases hb : cfg.node_public_key with _ | s2
    · simp
    · by_cases h2 : s2 = ""
      · subst h2
        constructor
        · intro hcon
          simp at hcon
        · rintro ⟨hs2, hne⟩
          cases hs2
          exact absurd rfl hne
      · constructor
        · intro hs
          have hs2 : s2 = s := by simpa [h2] using hs
          subst hs2
          exact ⟨rfl, h2⟩
        · rintro ⟨hs2, hne⟩
          cases hs2
          simp [h2]

/-- Claim C5: in every reachable module state, if the ambient Java-options
override has value V at construction time then after construction the
instance's environment maps `_JAVA_OPTIONS` to V; if the override is not set,
the key is bound in the instance's environment exactly as in the mapping the
caller passed, and is absent when the caller passed none. -/
theorem C5_java_options_env (cl amb : Option String) (st : ModuleState)
    (h : Reachable cl amb st) (supplied : Option Dict) :
    (∀ V, amb = some V →
      Dict.lookup (readEnv (postInitEnv supplied amb st).1 (postInitEnv supplied amb st).2)
        "_JAVA_OPTIONS" = some V) ∧
    (amb = none →
      Dict.lookup (readEnv (postInitEnv supplied amb st).1 (postInitEnv supplied amb st).2)
        "_JAVA_OPTIONS" =
      (match supplied with
        | some d => Dict.lookup d "_JAVA_OPTIONS"
        | none => none)) := by
  constructor
  · rintro V rfl
    rcases supplied <;> simp [postInitEnv, readEnv, Dict.lookup_insert]
  · rintro rfl
    rcases supplied with _ | d
    · simpa [postInitEnv, readEnv] using reachable_no_java cl st h
    · simp [postInitEnv, readEnv]

/-- Witness for C5: from the import-time state, constructing with no supplied
environment while the ambient override is "-Xms256m" yields an environment
mapping `_JAVA_OPTIONS` to "-Xms256m". -/
theorem C5_java_options_env_witness :
    Dict.lookup (readEnv (postInitEnv none (some "-Xms256m") (initState none)).1
        (postInitEnv none (some "-Xms256m") (initState none)).2) "_JAVA_OPTIONS" =
      some "-Xms256m" :=
  (C5_java_options_env none (some "-Xms256m") (initState none) Reachable.init none).1
    "-Xms256m" rfl

/-- Claim C6 (code bug, demonstration): constructing an instance with no
caller-supplied environment while the ambient Java-options override is set
leaves the instance aliasing the module-level `DEFAULT_NODE_ENV` object (as
does a second such instance), and mutates that shared baseline dict: it now
binds `_JAVA_OPTIONS`, which the import-time baseline does not contain.  The
instances are shared views, not independent copies. -/
theorem C6_shared_default_mutation :
    (postInitEnv none (some "-Xmx1g") (initState none)).1 = EnvRef.sharedDefault ∧
    (postInitEnv none (some "-Xmx1g")
        (postInitEnv none (some "-Xmx1g") (initState none)).2).1 = EnvRef.sharedDefault ∧
    Dict.lookup (postInitEnv none (some "-Xmx1g") (initState none)).2.defaultNodeEnvDict
        "_JAVA_OPTIONS" = some "-Xmx1g" ∧
    Dict.lookup (DEFAULT_NODE_ENV none) "_JAVA_OPTIONS" = none :=
  ⟨rfl, rfl, by decide, by decide⟩

/-- Claim C7, counterexample: an instance constructed with a caller-supplied
empty environment mapping does not contain the baseline keys, so the claim
does not hold for every constructed instance. -/
theorem C7_counterexample :
    ¬ (Dict.containsKey
        (readEnv (postInitEnv (some []) none (initState none)).1
          (postInitEnv (some []) none (initState none)).2) "RUST_BACKTRACE" = true) := by
  decide

/-- Claim C7 (amended): for every instance constructed without a
caller-supplied environment mapping, in any reachable module state,
immediately after construction the environment contains all four baseline
keys - the backtrace-verbosity marker, the log-level string, the
UPnP-disable marker, and the version tag - regardless of whether the ambient
Java-options override is present at construction time. -/
theorem C7_baseline_keys (cl amb : Option String) (st : ModuleState)
    (h : Reachable cl amb st) :
    Dict.lookup (readEnv (postInitEnv none amb st).1 (postInitEnv none amb st).2)
        "RUST_BACKTRACE" = some "full" ∧
    Dict.lookup (readEnv (postInitEnv none amb st).1 (postInitEnv none amb st).2)
        "CL_LOG_LEVEL" = some (cl.getD "INFO") ∧
    Dict.lookup (readEnv (postInitEnv none amb st).1 (postInitEnv none amb st).2)
        "CL_SERVER_NO_UPNP" = some "true" ∧
    Dict.lookup (readEnv (postInitEnv none amb st).1 (postInitEnv none amb st).2)
        "CL_VERSION" = some "test" := by
  have key : ∀ k, ¬ (k = "_JAVA_OPTIONS") →
      Dict.lookup (readEnv (postInitEnv none amb st).1 (postInitEnv none amb st).2) k =
        Dict.lookup (DEFAULT_NODE_ENV cl) k := by
    intro k hk
    rcases amb with _ | v
    · simpa [postInitEnv, readEnv] using reachable_lookup_ne cl none st h k hk
    · simp [postInitEnv, readEnv, Dict.lookup_insert, hk]
      exact reachable_lookup_ne cl (some v) st h k hk
  refine ⟨?_, ?_, ?_, ?_⟩ <;>
    rw [key _ (by decide)] <;> simp [DEFAULT_NODE_ENV, Dict.lookup]

/-- Witness for C7: from the import-time state with the ambient override set
to "-Xmx2g", a default-environment construction still binds all four
baseline keys. -/
theorem C7_baseline_keys_witness :
    Dict.lookup (readEnv (postInitEnv none (some "-Xmx2g") (initState none)).1
        (postInitEnv none (some "-Xmx2g") (initState none)).2) "RUST_BACKTRACE" =
      some "full" ∧
    Dict.lookup (readEnv (postInitEnv none (some "-Xmx2g") (initState none)).1
        (postInitEnv none (some "-Xmx2g") (initState none)).2) "CL_LOG_LEVEL" =
      some "INFO" ∧
    Dict.lookup (readEnv (postInitEnv none (some "-Xmx2g") (initState none)).1
        (postInitEnv none (some "-Xmx2g") (initState none)).2) "CL_SERVER_NO_UPNP" =
      some "true" ∧
    Dict.lookup (readEnv (postInitEnv none (some "-Xmx2g") (initState none)).1
        (postInitEnv none (some "-Xmx2g") (initState none)).2) "CL_VERSION" =
      some "test" :=
  C7_baseline_keys none (some "-Xmx2g") (initState none) Reachable.init

/-- Claim C8, counterexample: construction with both required arguments
supplied and a negative `number` succeeds, so construction does not require
`number` to be non-negative. -/
theorem C8_counterexample :
    mkDockerConfig (some DockerClient.mk) (some "pk") none none (-1) false true none
        false false =
      Except.ok
        { docker_client := DockerClient.mk, node_private_key := "pk", node_public_key := none
          node_env := none, network := none, number := -1, rand_str := none
          command_timeout := 180, mem_limit := "4G", is_bootstrap := false
          is_validator := true, is_signed_deploy := true, bootstrap_address := none
          initial_motes := 100 * 10 ^ 9, socket_volume := none, node_account := none
          grpc_encryption := false, is_read_only := false } := rfl

/-- Claim C8 (amended): construction with no runtime client or no private key
supplied fails immediately with a configuration error rather than yielding an
instance; when both are supplied, construction succeeds with no validation of
any field - negative node numbers and inconsistent role-flag combinations are
accepted. -/
theorem C8_construction (dc : Option DockerClient) (pk pub : Option String)
    (env : Option Dict) (number : Int) (ib iv : Bool) (ba : Option String) (ge ro : Bool) :
    (dc = none →
      mkDockerConfig dc pk pub env number ib iv ba ge ro =
        Except.error (ConstructError.missingRequiredArgument "docker_client")) ∧
    (∀ c, dc = some c → pk = none →
      mkDockerConfig dc pk pub env number ib iv ba ge ro =
        Except.error (ConstructError.missingRequiredArgument "node_private_key")) ∧
    (∀ c k, dc = some c → pk = some k →
      mkDockerConfig dc pk pub env number ib iv ba ge ro =
        Except.ok
          { docker_client := c, node_private_key := k, node_public_key := pub
            node_env := env, network := none, number := number, rand_str := none
            command_timeout := 180, mem_limit := "4G", is_bootstrap := ib
            is_validator := iv, is_signed_deploy := true, bootstrap_address := ba
            initial_motes := 100 * 10 ^ 9, socket_volume := none, node_account := none
            grpc_encryption := ge, is_read_only := ro }) := by
  refine ⟨?_, ?_, ?_⟩
  · rintro rfl
    rfl
  · rintro c rfl rfl
    rfl
  · rintro c k rfl rfl
    rfl

/-- Witness for C8: a missing client errors, a missing private key errors,
and a fully supplied call with a negative node number and an inconsistent
role combination (bootstrap node with a bootstrap address, read-only)
succeeds. -/
theorem C8_construction_witness :
    mkDockerConfig none none none none 0 false true none false false =
      Except.error (ConstructError.missingRequiredArgument "docker_client") ∧
    mkDockerConfig (some DockerClient.mk) none none none 0 false true none false false =
      Except.error (ConstructError.missingRequiredArgument "node_private_key") ∧
    mkDockerConfig (some DockerClient.mk) (some "pk") none none (-5) true true
        (some "1.2.3.4:40400") false true =
      Except.ok
        { docker_client := DockerClient.mk, node_private_key := "pk", node_public_key := none
          node_env := none, network := none, number := -5, rand_str := none
          command_timeout := 180, mem_limit := "4G", is_bootstrap := true
          is_validator := true, is_signed_deploy := true
          bootstrap_address := some "1.2.3.4:40400"
          initial_motes := 100 * 10 ^ 9, socket_volume := none, node_account := none
          grpc_encryption := false, is_read_only := true } :=
  ⟨(C8_construction none none none none 0 false true none false false).1 rfl,
   (C8_construction (some DockerClient.mk) none none none 0 false true none false
       false).2.1 DockerClient.mk rfl rfl,
   (C8_construction (some DockerClient.mk) (some "pk") none none (-5) true true
       (some "1.2.3.4:40400") false true).2.2 DockerClient.mk "pk" rfl rfl⟩

/-- Claim C9: `tls_certificate_path` and `tls_key_path` are deterministic
functions of the node number alone - two instances with the same number
return identical certificate-path and key-path strings, whatever their other
fields. -/
theorem C9_paths_only_number (c1 c2 : DockerConfig) (h : c1.number = c2.number) :
    c1.tls_certificate_path = c2.tls_certificate_path ∧
    c1.tls_key_path = c2.tls_key_path := by
  simp [DockerConfig.tls_certificate_path, DockerConfig.tls_key_path, h]

/-- Witness for C9: two instances with number 7 that differ in private key,
read-only flag, encryption flag, memory limit, bootstrap address and public
key have equal certificate paths and equal key paths. -/
theorem C9_paths_only_number_witness :
    ({ defaultConfig DockerClient.mk "K1" with number := 7 } :
        DockerConfig).tls_certificate_path =
      ({ defaultConfig DockerClient.mk "K2" with
          number := 7
          is_read_only := true
          grpc_encryption := true
          mem_limit := "8G"
          bootstrap_address := some "1.2.3.4:40400"
          node_public_key := some "PUB" } : DockerConfig).tls_certificate_path ∧
    ({ defaultConfig DockerClient.mk "K1" with number := 7 } : DockerConfig).tls_key_path =
      ({ defaultConfig DockerClient.mk "K2" with
          number := 7
          is_read_only := true
          grpc_encryption := true
          mem_limit := "8G"
          bootstrap_address := some "1.2.3.4:40400"
          node_public_key := some "PUB" } : DockerConfig).tls_key_path :=
  C9_paths_only_number
    { defaultConfig DockerClient.mk "K1" with number := 7 }
    { defaultConfig DockerClient.mk "K2" with
        number := 7
        is_read_only := true
        grpc_encryption := true
        mem_limit := "8G"
        bootstrap_address := some "1.2.3.4:40400"
        node_public_key := some "PUB" }
    rfl

/-- Claim C10: `node_command_options` is independent of `is_validator` - for
every host, flipping `is_validator` with all other fields equal yields an
identical mapping - and inclusion of the validator private-key flag is
decided solely by `is_read_only`. -/
theorem C10_options_ignore_is_validator (cfg : DockerConfig) (b : Bool) (host : String) :
    DockerConfig.node_command_options { cfg with is_validator := b } host =
      DockerConfig.node_command_options cfg host ∧
    Dict.containsKey (DockerConfig.node_command_options cfg host)
      "--casper-validator-private-key" = !cfg.is_read_only := by
  constructor
  · rcases cfg
    rfl
  · rw [Dict.containsKey_eq_isSome_lookup, options_lookup_private_key]
    cases hro : cfg.is_read_only <;> simp
